import Mathlib

/-!
Verification of the product-search service in `src/app/server.js`.

The server keeps an in-memory catalog (`sampleProducts`) and exposes a
search endpoint dispatching on `searchType` ("text" / "semantic" /
anything else → hybrid), a product listing endpoint, a product creation
endpoint, and a status probe for an external engine.

The JS code draws similarity scores from `Math.random()`.  We model the
random source as an explicit stream `rand : Nat → ℚ` supplying the value
produced by the i-th call to `Math.random() * 2 - 1` resp.
`Math.random() * 100` inside one request; every handler is then a pure
function of its inputs and this stream.  JS numbers are modelled as ℚ
(only comparisons and equalities of scores matter to the handlers).
-/

namespace VespaSample

/-- A product record as built in `server.js` (`sampleProducts` entries and
`newProduct` in the POST /api/products handler).  The two vector fields are
filled with `createRandomVector()` noise in the source and are never read
by any handler. -/
structure Product where
  id : String
  title : String
  description : String
  category : String
  price : ℚ
  description_vector : List ℚ
  title_vector : List ℚ
deriving DecidableEq, Repr

/-- A product paired with the `similarity` field that the semantic and
hybrid branches attach via object spread. -/
structure ScoredProduct where
  product : Product
  similarity : ℚ
deriving DecidableEq, Repr

/-- One element of the `results` array of a search response: text-branch
elements carry no `similarity` field, vector-scored elements do. -/
structure ResultItem where
  product : Product
  similarity : Option ℚ
deriving DecidableEq, Repr

/-- JS `needle ⊆ hay` substring test over char lists
(`String.prototype.includes`). -/
def listContainsSub (hay needle : List Char) : Bool :=
  (List.range (hay.length + 1)).any fun i => needle.isPrefixOf (hay.drop i)

/-- JS `hay.includes(needle)` on strings. -/
def strContains (hay needle : String) : Bool :=
  listContainsSub hay.data needle.data

/-- JS `s.toLowerCase()` (modelled per-character). -/
def strLower (s : String) : String :=
  ⟨s.data.map Char.toLower⟩

/-- The text-branch predicate of POST /api/search:
`product.title.toLowerCase().includes(query.toLowerCase()) ||
 product.description.toLowerCase().includes(query.toLowerCase())`. -/
def textMatch (query : String) (p : Product) : Bool :=
  strContains (strLower p.title) (strLower query) ||
    strContains (strLower p.description) (strLower query)

/-- The hybrid-branch lexical predicate: the source filters on the title
field only (`product.title.toLowerCase().includes(query.toLowerCase())`). -/
def titleMatch (query : String) (p : Product) : Bool :=
  strContains (strLower p.title) (strLower query)

/-- `.map((product) => ({...product, similarity: Math.random() * 100}))`:
attach the i-th stream value to the i-th product. -/
def scoreWith (rand : Nat → ℚ) : Nat → List Product → List ScoredProduct
  | _, [] => []
  | i, p :: ps => ⟨p, rand i⟩ :: scoreWith rand (i + 1) ps

/-- Insert into a list kept in non-increasing similarity order, before the
first element of smaller-or-equal score (the stable position produced by
the JS stable `sort((a, b) => b.similarity - a.similarity)`). -/
def insertDesc (x : ScoredProduct) : List ScoredProduct → List ScoredProduct
  | [] => [x]
  | y :: ys => if y.similarity ≤ x.similarity then x :: y :: ys
               else y :: insertDesc x ys

/-- `.sort((a, b) => b.similarity - a.similarity)`: stable sort by
descending similarity. -/
def sortDesc : List ScoredProduct → List ScoredProduct
  | [] => []
  | x :: xs => insertDesc x (sortDesc xs)

/-- Forget whether a result carried a similarity field. -/
def withScore (s : ScoredProduct) : ResultItem :=
  ⟨s.product, some s.similarity⟩

/-- The `text` branch of POST /api/search (lines 116–122). -/
def textBranch (query : String) (cat : List Product) : List ResultItem :=
  (cat.filter (textMatch query)).map fun p => ⟨p, none⟩

/-- The `semantic` branch of POST /api/search (lines 123–131): random
scores, sort descending, keep the first 3. -/
def semanticBranch (rand : Nat → ℚ) (cat : List Product) : List ResultItem :=
  ((sortDesc (scoreWith rand 0 cat)).map withScore).take 3

/-- The hybrid branch of POST /api/search (lines 132–151): title-only
lexical matches first, then the random-score ranking without the products
already matched (dedup by id through the `textIds` set), first 5 kept. -/
def hybridBranch (rand : Nat → ℚ) (query : String) (cat : List Product) :
    List ResultItem :=
  let textResults : List ResultItem :=
    (cat.filter (titleMatch query)).map fun p => ⟨p, none⟩
  let vectorResults : List ResultItem :=
    (sortDesc (scoreWith rand 0 cat)).map withScore
  let textIds : List String := textResults.map fun r => r.product.id
  (textResults ++
    vectorResults.filter fun r => !(textIds.contains r.product.id)).take 5

/-- Errors surfaced by the handlers with HTTP status 400. -/
inductive SearchError where
  | validationError (msg : String)
deriving DecidableEq, Repr

deriving instance DecidableEq for Except

/-- The JSON body of a successful POST /api/search response
(`message` omitted: it is derived text). -/
structure SearchResponse where
  query : String
  searchType : String
  results : List ResultItem
  count : Nat
deriving DecidableEq, Repr

/-- POST /api/search (lines 104–164).  `query?` and `searchType?` model
the request-body fields (absent → `none`); `searchType` defaults to
"text".  `queryVector?` models a query vector a client may send: the
handler destructures only `query` and `searchType` from the body and never
reads it.  `!query` rejects an absent or empty query before any dispatch. -/
def search (rand : Nat → ℚ) (cat : List Product) (query? : Option String)
    (searchType? : Option String) (queryVector? : Option (List ℚ)) :
    Except SearchError SearchResponse :=
  let query := query?.getD ""
  let searchType := searchType?.getD "text"
  if query = "" then .error (.validationError "Query is required")
  else
    let results :=
      if searchType = "text" then textBranch query cat
      else if searchType = "semantic" then semanticBranch rand cat
      else hybridBranch rand query cat
    .ok ⟨query, searchType, results, results.length⟩

/-- GET /api/products (lines 90–101): the catalog in insertion order. -/
def listProducts (cat : List Product) : List Product := cat

/-- POST /api/products (lines 167–197).  Returns the catalog after the
request together with the handler outcome.  `rv1`/`rv2` are the two
`createRandomVector()` results.  JS falsy checks: a missing or empty
title/description is rejected; a falsy category becomes "General", a
falsy price becomes 0. -/
def addProduct (cat : List Product) (rv1 rv2 : List ℚ)
    (title? description? category? : Option String) (price? : Option ℚ) :
    List Product × Except SearchError Product :=
  let title := title?.getD ""
  let description := description?.getD ""
  if title = "" ∨ description = "" then
    (cat, .error (.validationError "Title and description are required"))
  else
    let category := match category? with
      | none => "General"
      | some c => if c = "" then "General" else c
    let newProduct : Product :=
      ⟨toString (cat.length + 1), title, description, category,
        price?.getD 0, rv1, rv2⟩
    (cat ++ [newProduct], .ok newProduct)

/-- Written from the spec's words for comparison with `hybridBranch`
(claim C6): "run Lexical Matcher and Vector Ranker; start the result list
with lexical matches" where the Lexical Matcher "returns all products
where either field [title, description] contains the folded query",
"then append vector-ranked results not already included, truncated to a
configurable total (default 5); deduplication by product id". -/
def hybridCombinerSpec (rand : Nat → ℚ) (query : String)
    (cat : List Product) : List ResultItem :=
  let lexical : List ResultItem :=
    (cat.filter (textMatch query)).map fun p => ⟨p, none⟩
  let vector : List ResultItem :=
    (sortDesc (scoreWith rand 0 cat)).map withScore
  let lexIds : List String := lexical.map fun r => r.product.id
  (lexical ++ vector.filter fun r => !(lexIds.contains r.product.id)).take 5

/-- Outcome of the `fetch` call in GET /api/vespa/status: either a
response (status code and body text) or a transport failure with an error
message. -/
inductive FetchOutcome where
  | success (status : Nat) (body : String)
  | failure (message : String)
deriving DecidableEq, Repr

/-- The JSON body of GET /api/vespa/status: `vespaStatus` is the numeric
HTTP status on success and the string "disconnected" on failure; `status`
(the body text) is present only on success, `error` only on failure. -/
structure VespaStatusResponse where
  vespaStatus : Nat ⊕ String
  status : Option String
  error : Option String
  connected : Bool
deriving DecidableEq, Repr

/-- GET /api/vespa/status (lines 200–217): the `try` block answers from
the fetched response, the `catch` block degrades to `connected: false`. -/
def vespaStatusHandler : FetchOutcome → VespaStatusResponse
  | .success st body => ⟨.inl st, some body, none, st == 200⟩
  | .failure msg => ⟨.inr "disconnected", none, some msg, false⟩

/-- `createRandomVector()` (lines 73–79): 512 draws from the stream,
each mapped through `* 2 - 1`. -/
def createRandomVector (rand : Nat → ℚ) : List ℚ :=
  (List.range 512).map fun i => rand i * 2 - 1

/-- The initial `sampleProducts` array (lines 20–69), with its five
records.  The vector fields are `createRandomVector()` noise in the
source; they are never read by any handler, and we fix one arbitrary
stream value 0 for them (each component `0 * 2 - 1 = -1`). -/
def sampleProducts : List Product :=
  [ ⟨"1", "iPhone 15 Pro",
      "Latest Apple smartphone with titanium design and advanced camera system",
      "Electronics", 999.99, createRandomVector fun _ => 0,
      createRandomVector fun _ => 0⟩,
    ⟨"2", "MacBook Air M2",
      "Thin and light laptop with Apple Silicon chip for everyday computing",
      "Computers", 1199.99, createRandomVector fun _ => 0,
      createRandomVector fun _ => 0⟩,
    ⟨"3", "Nike Air Max",
      "Comfortable running shoes with air cushioning technology",
      "Sports", 129.99, createRandomVector fun _ => 0,
      createRandomVector fun _ => 0⟩,
    ⟨"4", "Samsung 4K TV",
      "High definition television with smart features and HDR support",
      "Electronics", 599.99, createRandomVector fun _ => 0,
      createRandomVector fun _ => 0⟩,
    ⟨"5", "Organic Coffee Beans",
      "Premium Arabica coffee beans from sustainable farms",
      "Food", 24.99, createRandomVector fun _ => 0,
      createRandomVector fun _ => 0⟩ ]

/-! ### Helper lemmas about the descending stable sort and the scoring map -/

theorem mem_insertDesc {x a : ScoredProduct} {l : List ScoredProduct} :
    a ∈ insertDesc x l ↔ a = x ∨ a ∈ l := by
  induction l with
  | nil => simp [insertDesc]
  | cons y ys ih =>
    by_cases h : y.similarity ≤ x.similarity
    · simp [insertDesc, h]
    · simp [insertDesc, h, ih]
      tauto

theorem insertDesc_perm (x : ScoredProduct) (l : List ScoredProduct) :
    List.Perm (insertDesc x l) (x :: l) := by
  induction l with
  | nil => rfl
  | cons y ys ih =>
    by_cases h : y.similarity ≤ x.similarity
    · simp [insertDesc, h]
    · simp only [insertDesc, h, if_neg, Bool.false_eq_true]
      exact (ih.cons y).trans (List.Perm.swap x y ys)

theorem sortDesc_perm (l : List ScoredProduct) : List.Perm (sortDesc l) l := by
  induction l with
  | nil => rfl
  | cons x xs ih => exact (insertDesc_perm x (sortDesc xs)).trans (ih.cons x)

theorem sorted_insertDesc (x : ScoredProduct) {l : List ScoredProduct}
    (h : l.Pairwise fun a b => b.similarity ≤ a.similarity) :
    (insertDesc x l).Pairwise fun a b => b.similarity ≤ a.similarity := by
  induction l with
  | nil => simp [insertDesc]
  | cons y ys ih =>
    rw [List.pairwise_cons] at h
    obtain ⟨h1, h2⟩ := h
    by_cases hc : y.similarity ≤ x.similarity
    · simp only [insertDesc, hc, if_pos]
      refine List.Pairwise.cons ?_ (List.Pairwise.cons h1 h2)
      intro z hz
      rcases List.mem_cons.mp hz with rfl | hz'
      · exact hc
      · exact le_trans (h1 z hz') hc
    · simp only [insertDesc, hc, if_neg, Bool.false_eq_true]
      refine List.Pairwise.cons ?_ (ih h2)
      intro z hz
      rcases mem_insertDesc.mp hz with rfl | hz'
      · exact le_of_lt (lt_of_not_le hc)
      · exact h1 z hz'

theorem sorted_sortDesc (l : List ScoredProduct) :
    (sortDesc l).Pairwise fun a b => b.similarity ≤ a.similarity := by
  induction l with
  | nil => simp [sortDesc]
  | cons x xs ih => exact sorted_insertDesc x ih

theorem scoreWith_map_product (rand : Nat → ℚ) :
    ∀ (i : Nat) (ps : List Product),
      (scoreWith rand i ps).map (fun s => s.product) = ps := by
  intro i ps
  induction ps generalizing i with
  | nil => rfl
  | cons p ps ih => simp [scoreWith, ih]

theorem length_scoreWith (rand : Nat → ℚ) :
    ∀ (i : Nat) (ps : List Product),
      (scoreWith rand i ps).length = ps.length := by
  intro i ps
  induction ps generalizing i with
  | nil => rfl
  | cons p ps ih => simp [scoreWith, ih]

theorem length_sortDesc (l : List ScoredProduct) :
    (sortDesc l).length = l.length :=
  (sortDesc_perm l).length_eq

/-- Claim C1: for every non-empty query, text mode returns exactly the catalog
products whose title or description contains the query case-insensitively. -/
theorem text_mode_exact_match (rand : Nat → ℚ) (cat : List Product)
    (q : String) (v : Option (List ℚ)) (hq : q ≠ "") :
    ∀ resp, search rand cat (some q) (some "text") v = .ok resp →
      ∀ p : Product, (∃ r ∈ resp.results, r.product = p) ↔
        (p ∈ cat ∧ textMatch q p = true) := by
  intro resp h p
  simp only [search, Option.getD_some, reduceIte] at h
  rw [if_neg hq] at h
  cases h
  simp [textBranch, List.mem_map, List.mem_filter]

/-- Claim C3 amended: search fails exactly when the query is empty or absent. -/
theorem search_error_iff_empty_query (rand : Nat → ℚ) (cat : List Product)
    (q? m? : Option String) (v? : Option (List ℚ)) :
    search rand cat q? m? v? =
      .error (.validationError "Query is required") ↔ q?.getD "" = "" := by
  by_cases h : q?.getD "" = ""
  · simp [search, h]
  · simp [search, h]

/-- Claim C9: any searchType other than "text" and "semantic" dispatches to the
hybrid branch and is never rejected. -/
theorem unknown_mode_goes_hybrid (rand : Nat → ℚ) (cat : List Product)
    (q mode : String) (v : Option (List ℚ)) (hm1 : mode ≠ "text")
    (hm2 : mode ≠ "semantic") (hq : q ≠ "") :
    search rand cat (some q) (some mode) v =
      .ok ⟨q, mode, hybridBranch rand q cat,
        (hybridBranch rand q cat).length⟩ := by
  simp [search, hq, hm1, hm2]

/-- Claim C10: every successful search response has count equal to the length of
its results list. -/
theorem search_count_eq_length (rand : Nat → ℚ) (cat : List Product)
    (q? m? : Option String) (v? : Option (List ℚ)) :
    match search rand cat q? m? v? with
    | .ok resp => resp.count = resp.results.length
    | .error _ => True := by
  by_cases h : q?.getD "" = ""
  · simp [search, h]
  · simp [search, h]

/-- Claim C2 counterexample: two searches with identical query, mode and (absent)
query vector but different Math.random draws return different results. -/
theorem search_random_nondeterminism :
    search (fun i => (i : ℚ)) sampleProducts (some "a") (some "semantic")
        none ≠
      search (fun i => ((5 - i : ℕ) : ℚ)) sampleProducts (some "a")
        (some "semantic") none := by
  decide

/-- Claim C3 counterexample: a semantic-mode search with no query vector
succeeds; the handler never validates a query vector. -/
theorem semantic_mode_without_vector_succeeds :
    search (fun _ => 0) sampleProducts (some "iphone") (some "semantic")
        none =
      .ok ⟨"iphone", "semantic", semanticBranch (fun _ => 0) sampleProducts,
        (semanticBranch (fun _ => 0) sampleProducts).length⟩ := rfl

/-- Claim C2 amended: text mode is deterministic regardless of the random
stream; semantic and hybrid modes are deterministic once the random
stream is also fixed. -/
theorem search_deterministic (r1 r2 : Nat → ℚ) (cat : List Product)
    (q? m? : Option String) (v? : Option (List ℚ)) :
    (search r1 cat q? (some "text") v? =
        search r2 cat q? (some "text") v?) ∧
      ((∀ i, r1 i = r2 i) →
        search r1 cat q? m? v? = search r2 cat q? m? v?) := by
  constructor
  · simp [search]
  · intro h
    rw [funext h]

/-- Claim C4: semantic mode returns results sorted by non-increasing similarity,
all carrying a similarity score, of length min 3 (catalog size). -/
theorem semantic_mode_topk_sorted (rand : Nat → ℚ) (cat : List Product)
    (q : String) (v : Option (List ℚ)) (hq : q ≠ "") :
    ∀ resp, search rand cat (some q) (some "semantic") v = .ok resp →
      resp.results.Pairwise
          (fun a b => b.similarity.getD 0 ≤ a.similarity.getD 0) ∧
        (∀ r ∈ resp.results, r.similarity.isSome = true) ∧
        resp.results.length = min 3 cat.length := by
  intro resp h
  simp only [search, Option.getD_some, reduceIte] at h
  rw [if_neg hq] at h
  cases h
  refine ⟨?_, ?_, ?_⟩
  · have hs := sorted_sortDesc (scoreWith rand 0 cat)
    have hmap : ((sortDesc (scoreWith rand 0 cat)).map withScore).Pairwise
        (fun a b => b.similarity.getD 0 ≤ a.similarity.getD 0) := by
      rw [List.pairwise_map]
      simpa [withScore] using hs
    exact List.Pairwise.sublist (List.take_sublist 3 _) hmap
  · intro r hr
    simp only [semanticBranch] at hr
    obtain ⟨s, _, rfl⟩ :=
      List.mem_map.mp (List.mem_of_mem_take hr)
    simp [withScore]
  · simp [semanticBranch, List.length_take, List.length_map, length_sortDesc,
      length_scoreWith]

/-- The id of every element of the hybrid result list, before truncation,
occurs at most once: the appended vector-ranked items are filtered against
the lexical ids. -/
theorem hybridBranch_ids_nodup (rand : Nat → ℚ) (q : String)
    (cat : List Product) (hnd : (cat.map Product.id).Nodup) :
    ((hybridBranch rand q cat).map fun r => r.product.id).Nodup := by
  simp only [hybridBranch]
  rw [List.map_take]
  refine List.Nodup.sublist (List.take_sublist 5 _) ?_
  rw [List.map_append]
  rw [List.nodup_append]
  set X : List ResultItem :=
    (cat.filter (titleMatch q)).map fun p => ⟨p, none⟩ with hX
  set Y : List ResultItem :=
    (sortDesc (scoreWith rand 0 cat)).map withScore with hY
  have hXids : X.map (fun r => r.product.id) =
      (cat.filter (titleMatch q)).map Product.id := by
    rw [hX, List.map_map]
    rfl
  have hXnd : (X.map fun r => r.product.id).Nodup := by
    rw [hXids]
    exact List.Nodup.sublist
      (List.Sublist.map Product.id (List.filter_sublist cat)) hnd
  have hYids : List.Perm (Y.map fun r => r.product.id)
      (cat.map Product.id) := by
    rw [hY, List.map_map]
    have h1 : List.Perm
        ((sortDesc (scoreWith rand 0 cat)).map
          ((fun r => r.product.id) ∘ withScore))
        ((scoreWith rand 0 cat).map ((fun r => r.product.id) ∘ withScore)) :=
      (sortDesc_perm (scoreWith rand 0 cat)).map _
    refine h1.trans ?_
    have h2 : (scoreWith rand 0 cat).map
        ((fun r => r.product.id) ∘ withScore) =
        ((scoreWith rand 0 cat).map (fun s => s.product)).map Product.id := by
      rw [List.map_map]
      rfl
    rw [h2, scoreWith_map_product]
  have hYnd : (Y.map fun r => r.product.id).Nodup :=
    (hYids.nodup_iff).mpr hnd
  refine ⟨hXnd, ?_, ?_⟩
  · refine List.Nodup.sublist ?_ hYnd
    exact List.Sublist.map _ (List.filter_sublist Y)
  · intro a ha hb
    obtain ⟨r, hr, rfl⟩ := List.mem_map.mp hb
    have hpred := List.of_mem_filter hr
    simp only [Bool.not_eq_true'] at hpred
    exact absurd ha (by simpa using hpred)

/-- Claim C5: a hybrid search over a catalog with pairwise-distinct product ids
returns no product id twice. -/
theorem hybrid_mode_no_duplicate_ids (rand : Nat → ℚ) (cat : List Product)
    (q : String) (v : Option (List ℚ)) (hq : q ≠ "")
    (hnd : (cat.map Product.id).Nodup) :
    ∀ resp, search rand cat (some q) (some "hybrid") v = .ok resp →
      (resp.results.map fun r => r.product.id).Nodup := by
  intro resp h
  simp only [search, Option.getD_some, reduceIte] at h
  rw [if_neg hq] at h
  cases h
  exact hybridBranch_ids_nodup rand q cat hnd

/-- Claim C6 counterexample: with query "smartphone" the lexical predicate over
title and description matches exactly product "1" (the word occurs in its
description), yet the hybrid search returns product "1" last, not first,
and its result differs from the spec-worded combiner. -/
theorem hybrid_ignores_description_matches :
    ((sampleProducts.filter (textMatch "smartphone")).map Product.id =
        ["1"]) ∧
      ((search (fun i => (i : ℚ)) sampleProducts (some "smartphone")
            (some "hybrid") none).map
          fun resp => resp.results.map fun r => r.product.id) =
        .ok ["5", "4", "3", "2", "1"] ∧
      hybridBranch (fun i => (i : ℚ)) "smartphone" sampleProducts ≠
        hybridCombinerSpec (fun i => (i : ℚ)) "smartphone" sampleProducts := by
  refine ⟨by decide, by decide, by decide⟩

/-- Claim C6 amended: hybrid places the title-only lexical matches first (the
source filters the title field only), then appends the vector-ranked
items whose ids are not among the lexical ids, and keeps the first 5. -/
theorem hybrid_mode_combiner (rand : Nat → ℚ) (cat : List Product)
    (q : String) (v : Option (List ℚ)) (hq : q ≠ "") :
    ∀ resp, search rand cat (some q) (some "hybrid") v = .ok resp →
      resp.results =
        (((cat.filter (titleMatch q)).map
            fun p => (⟨p, none⟩ : ResultItem)) ++
          ((sortDesc (scoreWith rand 0 cat)).map withScore).filter
            fun r => !((((cat.filter (titleMatch q)).map
                fun p => (⟨p, none⟩ : ResultItem)).map
                  fun x => x.product.id).contains r.product.id)).take 5 := by
  intro resp h
  simp only [search, Option.getD_some, reduceIte] at h
  rw [if_neg hq] at h
  cases h
  rfl

/-- Claim C7: addProduct rejects a missing or empty title or description leaving
the catalog unchanged, and otherwise appends a product that then appears
in listProducts. -/
theorem addProduct_validation (cat : List Product) (rv1 rv2 : List ℚ)
    (t? d? c? : Option String) (p? : Option ℚ) :
    ((t?.getD "" = "" ∨ d?.getD "" = "") →
        addProduct cat rv1 rv2 t? d? c? p? =
          (cat,
            .error (.validationError
              "Title and description are required"))) ∧
      (t?.getD "" ≠ "" → d?.getD "" ≠ "" →
        ∃ p, addProduct cat rv1 rv2 t? d? c? p? = (cat ++ [p], .ok p) ∧
          p ∈ listProducts (addProduct cat rv1 rv2 t? d? c? p?).1) := by
  constructor
  · intro h
    simp only [addProduct, if_pos h]
  · intro ht hd
    have hcond : ¬(t?.getD "" = "" ∨ d?.getD "" = "") := by tauto
    simp only [addProduct, if_neg hcond]
    exact ⟨_, rfl, by simp [listProducts]⟩

/-- Claim C8: the status probe produces a response for every fetch outcome and
reports connected = false on every transport failure. -/
theorem externalEngineStatus_never_throws (o : FetchOutcome) :
    (∃ s, vespaStatusHandler o = s) ∧
      (∀ msg, o = .failure msg →
        (vespaStatusHandler o).connected = false) := by
  refine ⟨⟨_, rfl⟩, ?_⟩
  intro msg h
  subst h
  rfl

/-! ### Concrete witnesses -/

theorem text_mode_exact_match_witness :
    (∃ r ∈ textBranch "iphone" sampleProducts,
        r.product = sampleProducts[0]) ↔
      (sampleProducts[0] ∈ sampleProducts ∧
        textMatch "iphone" sampleProducts[0] = true) :=
  text_mode_exact_match (fun _ => 0) sampleProducts "iphone" none
    (by decide)
    ⟨"iphone", "text", textBranch "iphone" sampleProducts,
      (textBranch "iphone" sampleProducts).length⟩ rfl sampleProducts[0]

theorem search_deterministic_witness :
    (search (fun _ => (0 : ℚ)) sampleProducts (some "tv") (some "text")
        none =
      search (fun _ => (1 : ℚ)) sampleProducts (some "tv") (some "text")
        none) ∧
      (search (fun _ => (0 : ℚ)) sampleProducts (some "tv")
          (some "semantic") none =
        search (fun _ => (0 : ℚ)) sampleProducts (some "tv")
          (some "semantic") none) :=
  ⟨(search_deterministic (fun _ => 0) (fun _ => 1) sampleProducts
      (some "tv") (some "semantic") none).1,
   (search_deterministic (fun _ => 0) (fun _ => 0) sampleProducts
      (some "tv") (some "semantic") none).2 (fun _ => rfl)⟩

theorem semantic_mode_topk_sorted_witness :
    (semanticBranch (fun _ => 0) sampleProducts).Pairwise
        (fun a b => b.similarity.getD 0 ≤ a.similarity.getD 0) ∧
      (∀ r ∈ semanticBranch (fun _ => 0) sampleProducts,
        r.similarity.isSome = true) ∧
      (semanticBranch (fun _ => 0) sampleProducts).length =
        min 3 sampleProducts.length :=
  semantic_mode_topk_sorted (fun _ => 0) sampleProducts "a" none
    (by decide)
    ⟨"a", "semantic", semanticBranch (fun _ => 0) sampleProducts,
      (semanticBranch (fun _ => 0) sampleProducts).length⟩ rfl

theorem hybrid_mode_no_duplicate_ids_witness :
    ((hybridBranch (fun _ => 0) "iphone" sampleProducts).map
        fun r => r.product.id).Nodup :=
  hybrid_mode_no_duplicate_ids (fun _ => 0) sampleProducts "iphone" none
    (by decide) (by decide)
    ⟨"iphone", "hybrid", hybridBranch (fun _ => 0) "iphone" sampleProducts,
      (hybridBranch (fun _ => 0) "iphone" sampleProducts).length⟩ rfl

theorem hybrid_mode_combiner_witness :
    hybridBranch (fun _ => 0) "iphone" sampleProducts =
      (((sampleProducts.filter (titleMatch "iphone")).map
          fun p => (⟨p, none⟩ : ResultItem)) ++
        ((sortDesc (scoreWith (fun _ => 0) 0 sampleProducts)).map
            withScore).filter
          fun r => !((((sampleProducts.filter (titleMatch "iphone")).map
              fun p => (⟨p, none⟩ : ResultItem)).map
                fun x => x.product.id).contains r.product.id)).take 5 :=
  hybrid_mode_combiner (fun _ => 0) sampleProducts "iphone" none
    (by decide)
    ⟨"iphone", "hybrid", hybridBranch (fun _ => 0) "iphone" sampleProducts,
      (hybridBranch (fun _ => 0) "iphone" sampleProducts).length⟩ rfl

theorem addProduct_validation_witness :
    (addProduct sampleProducts [] [] (some "") (some "x") none none =
        (sampleProducts,
          .error (.validationError
            "Title and description are required"))) ∧
      (∃ p, addProduct sampleProducts [] [] (some "T") (some "D") none
          none = (sampleProducts ++ [p], .ok p) ∧
        p ∈ listProducts (addProduct sampleProducts [] [] (some "T")
          (some "D") none none).1) :=
  ⟨(addProduct_validation sampleProducts [] [] (some "") (some "x") none
      none).1 (Or.inl rfl),
   (addProduct_validation sampleProducts [] [] (some "T") (some "D") none
      none).2 (by decide) (by decide)⟩

theorem externalEngineStatus_never_throws_witness :
    (∃ s, vespaStatusHandler (.failure "connect ECONNREFUSED") = s) ∧
      (vespaStatusHandler
        (.failure "connect ECONNREFUSED")).connected = false :=
  ⟨(externalEngineStatus_never_throws (.failure "connect ECONNREFUSED")).1,
   (externalEngineStatus_never_throws
      (.failure "connect ECONNREFUSED")).2 "connect ECONNREFUSED" rfl⟩

theorem unknown_mode_goes_hybrid_witness :
    search (fun _ => 0) sampleProducts (some "iphone") (some "hybird")
        none =
      .ok ⟨"iphone", "hybird",
        hybridBranch (fun _ => 0) "iphone" sampleProducts,
        (hybridBranch (fun _ => 0) "iphone" sampleProducts).length⟩ :=
  unknown_mode_goes_hybrid (fun _ => 0) sampleProducts "iphone" "hybird"
    none (by decide) (by decide) (by decide)

end VespaSample
